import Mathlib

/-!
# Verification of `pynfse_nacional` against its specification

Shallow embedding of the core of the `pynfse-nacional` repository
(document model validation, DPS XML serialization, signature-engine and
client error flow, transport codec) together with theorems settling the
claims about it.

Conventions:
* Python strings are modelled as Lean `String` (lists of characters);
  regular-expression character classes such as `[0-9]` are ASCII, matching
  the Python patterns used by the source.
* Python `Decimal` values carrying two decimal places are modelled as a
  number of cents (`Nat`).
* Fallible Python code (exceptions) is modelled with `Except`/`Option`.
-/

/- ## `utils.py` and `models.py`: CNPJ check-digit validators -/

/-- `int(c)` for an ASCII digit character: its numeric value. -/
def digitVal (c : Char) : Nat := c.toNat - 48

/-- `str(d)` for a single decimal digit `d ≤ 9`: the ASCII digit character. -/
def digitChar (d : Nat) : Char := Char.ofNat (48 + d)

/-- The inner `calc_digit` helper shared by both CNPJ validators:
`total = sum(int(c) * w for c, w in zip(partial, weights))`,
`remainder = total % 11`, `0 if remainder < 2 else 11 - remainder`. -/
def calc_digit (part : List Char) (weights : List Nat) : Nat :=
  let total := (List.zipWith (fun c w => digitVal c * w) part weights).sum
  let remainder := total % 11
  if remainder < 2 then 0 else 11 - remainder

/-- `weights1` of `utils.validate_cnpj` (also the first weight list of
`models._validate_cnpj_digits`). -/
def weights1 : List Nat := [5, 4, 3, 2, 9, 8, 7, 6, 5, 4, 3, 2]

/-- `weights2` of `utils.validate_cnpj` (also the second weight list of
`models._validate_cnpj_digits`). -/
def weights2 : List Nat := [6, 5, 4, 3, 2, 9, 8, 7, 6, 5, 4, 3, 2]

/-- `utils.validate_cnpj`: strip non-digits, require length 14, reject a
repeated single digit, then compare the last two characters with
`f"{d1}{d2}"` where `d1 = calc_digit(cnpj[:12], weights1)` and
`d2 = calc_digit(cnpj[:12] + str(d1), weights2)`. -/
def validate_cnpj (cnpj : String) : Bool :=
  let l := cnpj.data.filter Char.isDigit
  if l.length ≠ 14 then false
  else if l = List.replicate 14 (l.headD ' ') then false
  else
    let d1 := calc_digit (l.take 12) weights1
    let d2 := calc_digit (l.take 12 ++ [digitChar d1]) weights2
    decide (l.drop 12 = [digitChar d1, digitChar d2])

/-- `models._validate_cnpj_digits`: no stripping; require length 14 and not a
repeated single digit, then compare the last two characters with
`f"{d1}{d2}"` where `d1 = calc_digit(cnpj[:12], [5,...])` and
`d2 = calc_digit(cnpj[:13], [6,...])` (the second digit is computed from the
*input's* 13th character, not from the computed `d1`). -/
def validate_cnpj_digits (cnpj : String) : Bool :=
  let l := cnpj.data
  if l.length ≠ 14 ∨ l = List.replicate 14 (l.headD ' ') then false
  else
    let d1 := calc_digit (l.take 12) weights1
    let d2 := calc_digit (l.take 13) weights2
    decide (l.drop 12 = [digitChar d1, digitChar d2])

/-- A list of characters of length 14 is an explicit 14-element list. -/
theorem exists_fourteen (l : List Char) (h : l.length = 14) :
    ∃ c0 c1 c2 c3 c4 c5 c6 c7 c8 c9 c10 c11 c12 c13,
      l = [c0, c1, c2, c3, c4, c5, c6, c7, c8, c9, c10, c11, c12, c13] := by
  rcases l with _ | ⟨c0, _ | ⟨c1, _ | ⟨c2, _ | ⟨c3, _ | ⟨c4, _ | ⟨c5,
    _ | ⟨c6, _ | ⟨c7, _ | ⟨c8, _ | ⟨c9, _ | ⟨c10, _ | ⟨c11, _ | ⟨c12,
    _ | ⟨c13, _ | ⟨c14,
    l⟩⟩⟩⟩⟩⟩⟩⟩⟩⟩⟩⟩⟩⟩⟩ <;>
    simp only [List.length_cons, List.length_nil] at h <;>
    first
      | omega
      | exact ⟨c0, c1, c2, c3, c4, c5, c6, c7, c8, c9, c10, c11, c12, c13,
          rfl⟩

/-- C9: The provider-ID check-digit predicate accepts `"11222333000181"`,
rejects `"11222333000199"` (bad check digits), and rejects
`"11111111111111"` (all digits equal) — for both implementations
(`utils.validate_cnpj` and `models._validate_cnpj_digits`). -/
theorem cnpj_concrete_vectors :
    validate_cnpj "11222333000181" = true ∧
    validate_cnpj "11222333000199" = false ∧
    validate_cnpj "11111111111111" = false ∧
    validate_cnpj_digits "11222333000181" = true ∧
    validate_cnpj_digits "11222333000199" = false ∧
    validate_cnpj_digits "11111111111111" = false := by decide

set_option maxRecDepth 8000 in
/-- C10: on every 14-character all-digit string the two independent CNPJ
check-digit implementations agree: `utils.validate_cnpj` computes the second
check digit from the computed first digit, `models._validate_cnpj_digits`
from the input's 13th character, yet either both require the 13th character
to equal the computed first digit, so they accept exactly the same strings. -/
theorem cnpj_validators_agree (s : String)
    (hlen : s.data.length = 14)
    (hdig : ∀ c ∈ s.data, c.isDigit = true) :
    validate_cnpj s = validate_cnpj_digits s := by
  have hfilter : s.data.filter Char.isDigit = s.data :=
    List.filter_eq_self.mpr hdig
  obtain ⟨c0, c1, c2, c3, c4, c5, c6, c7, c8, c9, d0, d1, d2, d3, hs⟩ :=
    exists_fourteen s.data hlen
  unfold validate_cnpj validate_cnpj_digits
  rw [hfilter, hs]
  have ht12 : ([c0, c1, c2, c3, c4, c5, c6, c7, c8, c9, d0, d1, d2, d3] :
      List Char).take 12 = [c0, c1, c2, c3, c4, c5, c6, c7, c8, c9, d0, d1] := rfl
  have ht13 : ([c0, c1, c2, c3, c4, c5, c6, c7, c8, c9, d0, d1, d2, d3] :
      List Char).take 13 =
      [c0, c1, c2, c3, c4, c5, c6, c7, c8, c9, d0, d1, d2] := rfl
  have hd12 : ([c0, c1, c2, c3, c4, c5, c6, c7, c8, c9, d0, d1, d2, d3] :
      List Char).drop 12 = [d2, d3] := rfl
  have hlen' : ([c0, c1, c2, c3, c4, c5, c6, c7, c8, c9, d0, d1, d2, d3] :
      List Char).length = 14 := rfl
  have happ : ([c0, c1, c2, c3, c4, c5, c6, c7, c8, c9, d0, d1] : List Char) ++
      [digitChar (calc_digit [c0, c1, c2, c3, c4, c5, c6, c7, c8, c9, d0, d1]
        weights1)] =
      [c0, c1, c2, c3, c4, c5, c6, c7, c8, c9, d0, d1,
        digitChar (calc_digit [c0, c1, c2, c3, c4, c5, c6, c7, c8, c9, d0, d1]
          weights1)] := rfl
  simp only [ht12, ht13, hd12, hlen', happ]
  by_cases hrep : ([c0, c1, c2, c3, c4, c5, c6, c7, c8, c9, d0, d1, d2, d3] :
      List Char) = List.replicate 14
      (([c0, c1, c2, c3, c4, c5, c6, c7, c8, c9, d0, d1, d2, d3] :
        List Char).headD ' ')
  · rw [if_neg (by omega : ¬(14 : Nat) ≠ 14), if_pos hrep, if_pos (Or.inr hrep)]
  · rw [if_neg (by omega : ¬(14 : Nat) ≠ 14), if_neg hrep,
      if_neg (not_or.mpr ⟨by omega, hrep⟩)]
    by_cases h12 : d2 =
        digitChar (calc_digit [c0, c1, c2, c3, c4, c5, c6, c7, c8, c9, d0, d1]
          weights1)
    · rw [h12]
    · simp [h12]

/- ## `models.py`: DPS series validator -/

/-- `DPS.validate_serie`: acceptance by the Python regex
`re.match(r"^0\x7b0,4\x7d\d\x7b1,5\x7d$", v)` — up to four leading `'0'`
characters followed by one to five digit characters, anchored at both ends
(digits are ASCII here). -/
def validate_serie (v : String) : Bool :=
  (List.range 5).any (fun k =>
    decide (k ≤ v.data.length) &&
    (v.data.take k).all (fun c => c == '0') &&
    decide (1 ≤ v.data.length - k) && decide (v.data.length - k ≤ 5) &&
    (v.data.drop k).all Char.isDigit)

/-- C8 (code bug): the series validator accepts `"000001"`, a six-character
all-digit string, although its own docstring and error message promise
"serie deve ser numerica (1-5 digitos)": the `0\x7b0,4\x7d` prefix of the
regex lets zero-padded strings of up to nine characters through. -/
theorem serie_overlong_accepted :
    validate_serie "000001" = true ∧ "000001".data.length = 6 ∧
    validate_serie "900" = true ∧ validate_serie "NF" = false ∧
    validate_serie "123456" = false := by decide

/- ## `models.py`: CPF check digits and `Tomador` construction -/

/-- First weight list of `models._validate_cpf_digits`. -/
def cpfWeights1 : List Nat := [10, 9, 8, 7, 6, 5, 4, 3, 2]

/-- Second weight list of `models._validate_cpf_digits`. -/
def cpfWeights2 : List Nat := [11, 10, 9, 8, 7, 6, 5, 4, 3, 2]

/-- `models._validate_cpf_digits`: require length 11 and not a repeated
single digit, then compare the last two characters with `f"{d1}{d2}"` where
`d1 = calc_digit(cpf[:9], [10..2])`, `d2 = calc_digit(cpf[:10], [11..2])`. -/
def validate_cpf_digits (cpf : String) : Bool :=
  let l := cpf.data
  if l.length ≠ 11 ∨ l = List.replicate 11 (l.headD ' ') then false
  else
    let d1 := calc_digit (l.take 9) cpfWeights1
    let d2 := calc_digit (l.take 10) cpfWeights2
    decide (l.drop 9 = [digitChar d1, digitChar d2])

/-- `Tomador.validate_cpf` field validator: `None` passes through; otherwise
strip `.` and `-` (`re.sub(r"[.\-]", "", v)`), require `^[0-9]\x7b11\x7d$`,
then require valid check digits. -/
def tomador_validate_cpf : Option String → Except String (Option String)
  | none => .ok none
  | some v =>
    let clean := (v.data.filter (fun c => !(c == '.' || c == '-'))).asString
    if !(clean.data.length == 11 && clean.data.all Char.isDigit) then
      .error "CPF deve conter 11 digitos numericos"
    else if !validate_cpf_digits clean then
      .error "CPF invalido (digitos verificadores incorretos)"
    else .ok (some clean)

/-- `Tomador.validate_cnpj` field validator: `None` passes through; otherwise
strip `.`, `-` and `/` (`re.sub` with the class dot, hyphen, slash), require
`^[0-9]\x7b14\x7d$`, then require valid check digits. -/
def tomador_validate_cnpj : Option String → Except String (Option String)
  | none => .ok none
  | some v =>
    let clean := (v.data.filter (fun c => !(c == '.' || c == '-' || c == '/'))).asString
    if !(clean.data.length == 14 && clean.data.all Char.isDigit) then
      .error "CNPJ deve conter 14 digitos numericos"
    else if !validate_cnpj_digits clean then
      .error "CNPJ invalido (digitos verificadores incorretos)"
    else .ok (some clean)

/-- Construction of a `Tomador` restricted to its two identification fields:
the pydantic field validators for `cpf` and `cnpj` run first, then the
`validate_cpf_or_cnpj` model validator rejects the record iff both are
`None`. -/
def mkTomador (cpf cnpj : Option String) :
    Except String (Option String × Option String) := do
  let cpf' ← tomador_validate_cpf cpf
  let cnpj' ← tomador_validate_cnpj cnpj
  if cpf' = none ∧ cnpj' = none then
    .error "Tomador deve ter CPF ou CNPJ informado"
  else
    .ok (cpf', cnpj')

/-- C7 counterexample: supplying *both* a check-digit-valid CPF and a
check-digit-valid CNPJ constructs a `Tomador` successfully, refuting the
claim that construction fails when both identifiers are supplied. -/
theorem tomador_both_ids_accepted :
    mkTomador (some "111.444.777-35") (some "11.222.333/0001-81") =
      .ok (some "11144477735", some "11222333000181") := rfl

/-- C7 (amended): every successfully constructed `Tomador` has at least one
of the two identifiers, and construction with both absent fails; supplying
both is accepted (the two identifiers are not mutually exclusive). -/
theorem tomador_id_presence :
    (∀ r, mkTomador none none ≠ .ok r) ∧
    (∀ cpf cnpj r, mkTomador cpf cnpj = .ok r → r.1 ≠ none ∨ r.2 ≠ none) := by
  constructor
  · intro r h
    rw [show mkTomador none none = .error "Tomador deve ter CPF ou CNPJ informado"
      from rfl] at h
    exact Except.noConfusion h
  · intro cpf cnpj r h
    unfold mkTomador at h
    cases hc : tomador_validate_cpf cpf with
    | error e => rw [hc] at h; simp [Bind.bind, Except.bind] at h
    | ok cpf' =>
      rw [hc] at h
      simp only [Bind.bind, Except.bind] at h
      cases hn : tomador_validate_cnpj cnpj with
      | error e => rw [hn] at h; simp at h
      | ok cnpj' =>
        rw [hn] at h
        have h' : (if cpf' = none ∧ cnpj' = none then
            (Except.error "Tomador deve ter CPF ou CNPJ informado" :
              Except String (Option String × Option String))
          else Except.ok (cpf', cnpj')) = Except.ok r := h
        split_ifs at h' with hcond
        have hr : (cpf', cnpj') = r := by injection h'
        subst hr
        exact not_and_or.mp hcond

/-- Witness for C7 (amended): a concretely constructed `Tomador` with only a
CPF indeed has one of the identifiers present. -/
theorem tomador_id_presence_witness :
    (some "11144477735" : Option String) ≠ none ∨
    (none : Option String) ≠ none :=
  tomador_id_presence.2 (some "11144477735") none (some "11144477735", none) rfl

/-- Witness for C10: the two CNPJ validators agree on a concrete
14-digit string. -/
theorem cnpj_validators_agree_witness :
    validate_cnpj "11222333000181" = validate_cnpj_digits "11222333000181" :=
  cnpj_validators_agree "11222333000181" (by decide) (by decide)

/- ## `models.py`: record types consumed by the serializer -/

/-- `Endereco` (the fields the serializer reads). -/
structure Endereco where
  logradouro : String
  numero : String
  complemento : Option String
  bairro : String
  codigo_municipio : Nat
  uf : String
  cep : String

/-- `Prestador` (the fields the serializer reads). -/
structure Prestador where
  cnpj : String
  inscricao_municipal : String
  razao_social : String
  nome_fantasia : Option String
  endereco : Endereco
  email : Option String
  telefone : Option String

/-- `Tomador` (the fields the serializer reads). -/
structure Tomador where
  cpf : Option String
  cnpj : Option String
  razao_social : String
  endereco : Option Endereco
  email : Option String
  telefone : Option String

/-- `Servico` (the fields the serializer reads). Monetary/percentage
`Decimal` fields carry two decimal places and are modelled in cents. -/
structure Servico where
  codigo_cnae : Option String
  codigo_lc116 : String
  codigo_tributacao_municipal : Option String
  codigo_nbs : Option String
  discriminacao : String
  valor_servicos : Nat
  iss_retido : Bool
  aliquota_simples : Option Nat

/-- A `datetime.datetime` value (date and wall-clock components). -/
structure PyDateTime where
  year : Nat
  month : Nat
  day : Nat
  hour : Nat
  minute : Nat
  second : Nat

/-- `DPS` (the fields the serializer reads). -/
structure DPS where
  id_dps : Option String
  serie : String
  numero : Nat
  competencia : String
  data_emissao : PyDateTime
  prestador : Prestador
  tomador : Tomador
  servico : Servico
  regime_tributario : String
  optante_simples : Bool
  incentivador_cultural : Bool

/-- `constants.Ambiente`. -/
inductive Ambiente where
  | HOMOLOGACAO
  | PRODUCAO
deriving DecidableEq

/- ## `xml_builder.py`: the DPS XML serializer -/

/-- An `xml.etree.ElementTree` element: tag, attributes (whose values may be
`None`, which `ET.tostring` refuses to serialize), text, children. -/
inductive XElem where
  | node (tag : String) (attrs : List (String × Option String))
      (text : Option String) (children : List XElem)

/-- Left-pad with a character up to a width (`str.rjust` / `str.zfill`). -/
def padLeft (s : String) (c : Char) (width : Nat) : String :=
  (List.replicate (width - s.data.length) c).asString ++ s

/-- Two-digit zero-padded rendering of a field (strftime `%m`, `%d`, ...). -/
def pad2 (n : Nat) : String :=
  if n < 10 then "0" ++ toString n else toString n

/-- Four-digit zero-padded rendering of the year (strftime `%Y`). -/
def pad4 (n : Nat) : String := padLeft (toString n) '0' 4

/-- `strftime("%Y-%m-%dT%H:%M:%S-03:00")`. -/
def strftime_dhEmi (d : PyDateTime) : String :=
  pad4 d.year ++ "-" ++ pad2 d.month ++ "-" ++ pad2 d.day ++ "T" ++
    pad2 d.hour ++ ":" ++ pad2 d.minute ++ ":" ++ pad2 d.second ++ "-03:00"

/-- `strftime("%Y-%m-%d")`. -/
def strftime_date (d : PyDateTime) : String :=
  pad4 d.year ++ "-" ++ pad2 d.month ++ "-" ++ pad2 d.day

/-- `XMLBuilder._format_decimal`: `f"{value:.2f}"` on a two-decimal
`Decimal` held in cents. -/
def format_decimal (cents : Nat) : String :=
  toString (cents / 100) ++ "." ++ pad2 (cents % 100)

/-- `XMLBuilder._map_regime_especial`: special-regime code table with
default `"0"`. -/
def map_regime_especial (regime : String) : String :=
  if regime = "mei" then "4"
  else if regime = "cooperativa" then "1"
  else if regime = "estimativa" then "2"
  else if regime = "sociedade_profissionais" then "3"
  else if regime = "microempresario_individual" then "4"
  else if regime = "microempresa_epp" then "5"
  else "0"

/-- `ET.SubElement(parent, tag).text = text` for a childless element. -/
def leaf (tag text : String) : XElem := .node tag [] (some text) []

/-- `if x: ET.SubElement(parent, tag).text = x` for an optional string
field: emitted only when present and non-empty (Python truthiness). -/
def optLeaf (tag : String) : Option String → List XElem
  | none => []
  | some s => if s = "" then [] else [leaf tag s]

/-- Python truthiness of an optional string. -/
def truthy : Option String → Bool
  | none => false
  | some s => !(s == "")

/-- `XMLBuilder._add_prestador`. -/
def add_prestador (dps : DPS) : XElem :=
  .node "prest" [] none
    ([leaf "CNPJ" dps.prestador.cnpj,
      leaf "IM" (padLeft dps.prestador.inscricao_municipal ' ' 15)] ++
     optLeaf "fone" dps.prestador.telefone ++
     optLeaf "email" dps.prestador.email ++
     [.node "regTrib" [] none
       ([leaf "opSimpNac" (if dps.optante_simples then "3" else "1")] ++
        (if dps.optante_simples then [leaf "regApTribSN" "1"] else []) ++
        [leaf "regEspTrib" (map_regime_especial dps.regime_tributario)])])

/-- The tomador address subtree (`end`/`endNac` block). -/
def tomador_end (e : Endereco) : XElem :=
  .node "end" [] none
    ([.node "endNac" [] none
        [leaf "cMun" (toString e.codigo_municipio), leaf "CEP" e.cep],
      leaf "xLgr" e.logradouro,
      leaf "nro" e.numero] ++
     optLeaf "xCpl" e.complemento ++
     [leaf "xBairro" e.bairro])

/-- `XMLBuilder._add_tomador`. -/
def add_tomador (dps : DPS) : XElem :=
  .node "toma" [] none
    ((if truthy dps.tomador.cpf then [leaf "CPF" (dps.tomador.cpf.getD "")]
      else if truthy dps.tomador.cnpj then
        [leaf "CNPJ" (dps.tomador.cnpj.getD "")]
      else []) ++
     [leaf "xNome" dps.tomador.razao_social] ++
     (match dps.tomador.endereco with
      | some e => [tomador_end e]
      | none => []))

/-- `XMLBuilder._add_servico`. -/
def add_servico (dps : DPS) : XElem :=
  .node "serv" [] none
    [.node "locPrest" [] none
      [leaf "cLocPrestacao" (toString dps.prestador.endereco.codigo_municipio)],
     .node "cServ" [] none
      ([leaf "cTribNac"
          (padLeft ((dps.servico.codigo_lc116.data.filter (· ≠ '.')).asString)
            '0' 6)] ++
       optLeaf "cTribMun" dps.servico.codigo_tributacao_municipal ++
       [leaf "xDescServ" dps.servico.discriminacao] ++
       optLeaf "cNBS" dps.servico.codigo_nbs)]

/-- `XMLBuilder._add_valores`: for `optante_simples`, a single
`pTotTribSN` leaf (the rate, or `Decimal("18.83")` when `aliquota_simples`
is `None` or falsy); otherwise a `pTotTrib` node with a zero
federal/state/municipal breakdown. -/
def add_valores (dps : DPS) : XElem :=
  .node "valores" [] none
    [.node "vServPrest" [] none
      [leaf "vServ" (format_decimal dps.servico.valor_servicos)],
     .node "trib" [] none
      [.node "tribMun" [] none
        [leaf "tribISSQN" "1",
         leaf "tpRetISSQN" (if dps.servico.iss_retido then "2" else "1")],
       .node "totTrib" [] none
        (if dps.optante_simples then
          [leaf "pTotTribSN" (format_decimal
            (match dps.servico.aliquota_simples with
             | some a => if a = 0 then 1883 else a
             | none => 1883))]
        else
          [.node "pTotTrib" [] none
            [leaf "pTotTribFed" "0",
             leaf "pTotTribEst" "0",
             leaf "pTotTribMun" "0"]])]]

/-- `XMLBuilder.build_dps` (element-tree part): root `DPS` element with the
fixed version/namespace attributes, one `infDPS` child carrying `id_dps` as
its `Id` attribute, emission metadata in schema order, then the prestador,
tomador, servico and valores blocks. -/
def build_dps (ambiente : Ambiente) (dps : DPS) : XElem :=
  .node "DPS"
    [("versao", some "1.01"),
     ("xmlns", some "http://www.sped.fazenda.gov.br/nfse")] none
    [.node "infDPS" [("Id", dps.id_dps)] none
      [leaf "tpAmb" (if ambiente = Ambiente.PRODUCAO then "1" else "2"),
       leaf "dhEmi" (strftime_dhEmi dps.data_emissao),
       leaf "verAplic" "pynfse-1.0",
       leaf "serie" dps.serie,
       leaf "nDPS" (toString dps.numero),
       leaf "dCompet" (strftime_date dps.data_emissao),
       leaf "tpEmit" "1",
       leaf "cLocEmi" (toString dps.prestador.endereco.codigo_municipio),
       add_prestador dps,
       add_tomador dps,
       add_servico dps,
       add_valores dps]]

/-- `ET` text escaping: `&`, `<`, `>`. -/
def escape_text (s : String) : String :=
  (s.data.foldr (fun c acc =>
    (if c = '&' then "&amp;".data
     else if c = '<' then "&lt;".data
     else if c = '>' then "&gt;".data
     else [c]) ++ acc) []).asString

/-- `ET` attribute-value escaping: `&`, `<`, `>`, `"`, and whitespace
control characters. -/
def escape_attrib (s : String) : String :=
  (s.data.foldr (fun c acc =>
    (if c = '&' then "&amp;".data
     else if c = '<' then "&lt;".data
     else if c = '>' then "&gt;".data
     else if c = '"' then "&quot;".data
     else if c = '\r' then "&#13;".data
     else if c = '\n' then "&#10;".data
     else if c = '\t' then "&#09;".data
     else [c]) ++ acc) []).asString

/-- Serialize an attribute list; a `None` value raises
`TypeError: cannot serialize None (type NoneType)` as `ET.tostring` does. -/
def serializeAttrsList : List (String × Option String) → Except String String
  | [] => .ok ""
  | (_, none) :: _ => .error "cannot serialize None (type NoneType)"
  | (k, some v) :: rest =>
      (serializeAttrsList rest).map
        (fun r => " " ++ k ++ "=\x22" ++ escape_attrib v ++ "\x22" ++ r)

mutual

/-- `ET.tostring` body: start tag with attributes, text, children, end tag;
an element with falsy text and no children is emitted in short form. -/
def serializeXml : XElem → Except String String
  | .node tag attrs none [] =>
      (serializeAttrsList attrs).map (fun a => "<" ++ tag ++ a ++ " />")
  | .node tag attrs (some "") [] =>
      (serializeAttrsList attrs).map (fun a => "<" ++ tag ++ a ++ " />")
  | .node tag attrs text children => do
      let a ← serializeAttrsList attrs
      let cs ← serializeChildren children
      .ok ("<" ++ tag ++ a ++ ">" ++
        (match text with | some tx => escape_text tx | none => "") ++
        cs ++ "</" ++ tag ++ ">")

/-- Serialize a child list in order. -/
def serializeChildren : List XElem → Except String String
  | [] => .ok ""
  | e :: es => do
      let s ← serializeXml e
      let rest ← serializeChildren es
      .ok (s ++ rest)

end

/-- `ET.tostring(root, encoding="unicode", xml_declaration=True)`. -/
def tostring (root : XElem) : Except String String :=
  (serializeXml root).map
    (fun b => "<?xml version='1.0' encoding='utf-8'?>\n" ++ b)

/-- `XMLBuilder.build_dps`: element construction followed by
`ET.tostring`. -/
def build_dps_string (ambiente : Ambiente) (dps : DPS) : Except String String :=
  tostring (build_dps ambiente dps)

mutual

/-- Number of elements with the given tag in a tree. -/
def countTag (t : String) : XElem → Nat
  | .node tag _ _ cs => (if tag = t then 1 else 0) + countTagL t cs

/-- Number of elements with the given tag in a forest. -/
def countTagL (t : String) : List XElem → Nat
  | [] => 0
  | e :: es => countTag t e + countTagL t es

end

mutual

/-- Number of elements with the given tag *and* text in a tree. -/
def countTagText (t x : String) : XElem → Nat
  | .node tag _ text cs =>
      (if tag = t ∧ text = some x then 1 else 0) + countTagTextL t x cs

/-- Number of elements with the given tag and text in a forest. -/
def countTagTextL (t x : String) : List XElem → Nat
  | [] => 0
  | e :: es => countTagText t x e + countTagTextL t x es

end

theorem countTag_node (t tag : String) (a : List (String × Option String))
    (x : Option String) (cs : List XElem) :
    countTag t (.node tag a x cs) = (if tag = t then 1 else 0) + countTagL t cs :=
  rfl

theorem countTagL_nil (t : String) : countTagL t [] = 0 := rfl

theorem countTagL_cons (t : String) (e : XElem) (es : List XElem) :
    countTagL t (e :: es) = countTag t e + countTagL t es := rfl

theorem countTagL_append (t : String) (l1 l2 : List XElem) :
    countTagL t (l1 ++ l2) = countTagL t l1 + countTagL t l2 := by
  induction l1 with
  | nil => simp [countTagL_nil]
  | cons e es ih => simp [countTagL_cons, ih, Nat.add_assoc]

theorem countTag_leaf (t tag s : String) :
    countTag t (leaf tag s) = if tag = t then 1 else 0 := rfl

theorem countTagL_optLeaf (t tag : String) (o : Option String) (h : tag ≠ t) :
    countTagL t (optLeaf tag o) = 0 := by
  cases o with
  | none => rfl
  | some s =>
    simp only [optLeaf]
    split_ifs
    · rfl
    · simp [countTagL_cons, countTagL_nil, countTag_leaf, h]

theorem countTagL_ite (t : String) (c : Prop) [Decidable c]
    (l1 l2 : List XElem) :
    countTagL t (if c then l1 else l2) =
      if c then countTagL t l1 else countTagL t l2 :=
  apply_ite (countTagL t) c l1 l2

theorem countTagText_node (t x tag : String)
    (a : List (String × Option String)) (tx : Option String)
    (cs : List XElem) :
    countTagText t x (.node tag a tx cs) =
      (if tag = t ∧ tx = some x then 1 else 0) + countTagTextL t x cs := rfl

theorem countTagTextL_nil (t x : String) : countTagTextL t x [] = 0 := rfl

theorem countTagTextL_cons (t x : String) (e : XElem) (es : List XElem) :
    countTagTextL t x (e :: es) =
      countTagText t x e + countTagTextL t x es := rfl

theorem countTagTextL_append (t x : String) (l1 l2 : List XElem) :
    countTagTextL t x (l1 ++ l2) =
      countTagTextL t x l1 + countTagTextL t x l2 := by
  induction l1 with
  | nil => simp [countTagTextL_nil]
  | cons e es ih => simp [countTagTextL_cons, ih, Nat.add_assoc]

theorem countTagText_leaf (t x tag s : String) :
    countTagText t x (leaf tag s) =
      if tag = t ∧ some s = some x then 1 else 0 := rfl

theorem countTagTextL_optLeaf (t x tag : String) (o : Option String)
    (h : tag ≠ t) : countTagTextL t x (optLeaf tag o) = 0 := by
  cases o with
  | none => rfl
  | some s =>
    simp only [optLeaf]
    split_ifs
    · rfl
    · simp [countTagTextL_cons, countTagTextL_nil, countTagText_leaf, h]

theorem countTagTextL_ite (t x : String) (c : Prop) [Decidable c]
    (l1 l2 : List XElem) :
    countTagTextL t x (if c then l1 else l2) =
      if c then countTagTextL t x l1 else countTagTextL t x l2 :=
  apply_ite (countTagTextL t x) c l1 l2

/-- The sample address of the repository's builder tests. -/
def sample_endereco : Endereco :=
  { logradouro := "Rua Teste", numero := "100", complemento := some "Sala 1",
    bairro := "Centro", codigo_municipio := 3509502, uf := "SP",
    cep := "13000000" }

/-- The sample provider of the repository's builder tests. -/
def sample_prestador : Prestador :=
  { cnpj := "11222333000181", inscricao_municipal := "12345",
    razao_social := "Clinica Teste LTDA",
    nome_fantasia := some "Clinica Teste", endereco := sample_endereco,
    email := some "contato@clinica.com", telefone := some "1999999999" }

/-- The sample recipient of the repository's builder tests. -/
def sample_tomador : Tomador :=
  { cpf := some "12345678901", cnpj := none, razao_social := "Joao Silva",
    endereco := some sample_endereco, email := some "paciente@email.com",
    telefone := some "1988888888" }

/-- The sample service of the repository's builder tests:
value `Decimal("500.00")`. -/
def sample_servico : Servico :=
  { codigo_cnae := some "8630503", codigo_lc116 := "4.03.03",
    codigo_tributacao_municipal := some "123456",
    codigo_nbs := some "1.0101.01.00", discriminacao := "Consulta medica",
    valor_servicos := 50000, iss_retido := false,
    aliquota_simples := some 1550 }

/-- The fixed `DeclarationDocument` of the claim: series `"900"`, sequence
number `1`, competency `"2026-01"`, emission timestamp
`2026-01-15 10:30:00`, service value `500.00`. -/
def sample_dps : DPS :=
  { id_dps := some "DPS350950221122233300018100900000000000000001",
    serie := "900", numero := 1, competencia := "2026-01",
    data_emissao := ⟨2026, 1, 15, 10, 30, 0⟩,
    prestador := sample_prestador, tomador := sample_tomador,
    servico := sample_servico, regime_tributario := "simples_nacional",
    optante_simples := true, incentivador_cultural := false }

/-- C1 counterexample: for the fixed document the serializer does emit a
currency field `vServ` with text exactly `"500.00"`, but no element at all
carries the text `"2026-01"`: the competency element `dCompet` is rendered
from the *emission date* with `strftime("%Y-%m-%d")`. -/
theorem sample_dps_no_competency_text :
    countTagText "vServ" "500.00" (build_dps Ambiente.HOMOLOGACAO sample_dps)
      = 1 ∧
    countTagText "dCompet" "2026-01"
      (build_dps Ambiente.HOMOLOGACAO sample_dps) = 0 := by decide

/-- C1 (amended): for the fixed document the serializer emits `vServ` with
text exactly `"500.00"`, and the competency field `dCompet` carries the
emission date in `YYYY-MM-DD` form, here `"2026-01-15"`. -/
theorem sample_dps_currency_and_dcompet :
    countTagText "vServ" "500.00" (build_dps Ambiente.HOMOLOGACAO sample_dps)
      = 1 ∧
    countTagText "dCompet" "2026-01-15"
      (build_dps Ambiente.HOMOLOGACAO sample_dps) = 1 := by decide

/-- C2 (code bug): with `id_dps` absent no identifier is generated — the
`None` is passed straight through as the `Id` attribute and `ET.tostring`
raises (`cannot serialize None`); with an identifier supplied, serialization
succeeds. -/
theorem build_dps_without_id_fails :
    build_dps_string Ambiente.HOMOLOGACAO { sample_dps with id_dps := none }
      = .error "cannot serialize None (type NoneType)" ∧
    (build_dps_string Ambiente.HOMOLOGACAO sample_dps).isOk = true :=
  ⟨rfl, rfl⟩

/-- C4: for every document and environment, the simplified-regime flag picks
exactly one of the two value shapes in the whole output tree: a single
aggregate `pTotTribSN` leaf when `optante_simples`, and otherwise exactly
one `pTotTrib` breakdown whose federal/state/municipal components each
carry `"0"` — never both. -/
theorem valores_shape (amb : Ambiente) (dps : DPS) :
    countTag "pTotTribSN" (build_dps amb dps) =
      (if dps.optante_simples then 1 else 0) ∧
    countTag "pTotTrib" (build_dps amb dps) =
      (if dps.optante_simples then 0 else 1) ∧
    countTagText "pTotTribFed" "0" (build_dps amb dps) =
      (if dps.optante_simples then 0 else 1) ∧
    countTagText "pTotTribEst" "0" (build_dps amb dps) =
      (if dps.optante_simples then 0 else 1) ∧
    countTagText "pTotTribMun" "0" (build_dps amb dps) =
      (if dps.optante_simples then 0 else 1) := by
  unfold build_dps add_prestador add_tomador add_servico add_valores
  cases hopt : dps.optante_simples <;>
    cases hend : dps.tomador.endereco <;>
    simp [tomador_end, countTag_node, countTagL_cons, countTagL_nil,
      countTagL_append, countTag_leaf, countTagL_optLeaf, countTagL_ite,
      countTagText_node, countTagTextL_cons, countTagTextL_nil,
      countTagTextL_append, countTagText_leaf, countTagTextL_optLeaf,
      countTagTextL_ite, leaf]

/- ## `exceptions.py`, `client.py`, `xml_signer.py`: error taxonomy -/

/-- The exception classes of `exceptions.py` (plus Python's built-in
`KeyError`, which required-key lookups raise uncaught). -/
inductive PyExc where
  | NFSeError
  | NFSeAPIError
  | NFSeValidationError
  | NFSeCertificateError
  | NFSeXMLError
  | KeyError
deriving DecidableEq

/-- The class of the exception carried by a failure, if any. -/
def excClass {ε β : Type} : Except (PyExc × ε) β → Option PyExc
  | .error (k, _) => some k
  | .ok _ => none

/-- A raised Python exception of the client layer: the repository's classes
with the attributes their constructors set, plus the library exceptions the
client code handles or lets escape (`json.JSONDecodeError`,
`httpx.TimeoutException`, `httpx.RequestError`, built-in `KeyError`). -/
inductive PyException where
  | NFSeAPIError (message : String) (code : Option String)
      (status_code : Option Nat) (response_body : Option String)
  | NFSeCertificateError (message : String) (code : Option String)
  | JSONDecodeError (message : String)
  | TimeoutException (message : String)
  | RequestError (message : String)
  | KeyError (key : String)
deriving DecidableEq

/-- Python `str(e)` on such an exception instance (the message it was
constructed with; for `KeyError`, the quoted key). -/
def pyStr : PyException → String
  | .NFSeAPIError message _ _ _ => message
  | .NFSeCertificateError message _ => message
  | .JSONDecodeError message => message
  | .TimeoutException message => message
  | .RequestError message => message
  | .KeyError key => "\x27" ++ key ++ "\x27"

/-- The JSON object fields the query parser reads. -/
structure JsonBody where
  mensagem : Option String
  codigo : Option String
  chaveAcesso : Option String
  nNFSe : Option String
  situacao : Option String
  dhEmi : Option String
  vServPrest : Option Nat
  CNPJPrest : Option String
  CPFToma : Option String
  CNPJToma : Option String
deriving DecidableEq

/-- An HTTP response as the client consumes it: status, raw body text, and
the parsed JSON body — `none` when the text is not valid JSON, in which
case `response.json()` raises `json.JSONDecodeError` ("Expecting value").
`Decimal` value in cents. -/
structure HttpResponse where
  status_code : Nat
  text : String
  json : Option JsonBody
deriving DecidableEq

/-- `models.NFSeQueryResult` (the `nfse`-XML passthrough field aside;
`data_emissao` kept textual). -/
structure NFSeQueryResult where
  chave_acesso : String
  nfse_number : String
  status : String
  data_emissao : String
  valor_servicos : Nat
  prestador_cnpj : String
  tomador_documento : Option String
deriving DecidableEq

/-- Python `a or b` on optional strings (`None` and `""` are falsy). -/
def pyOr (a b : Option String) : Option String :=
  if truthy a then a else b

/-- `response.json()`: the parsed body, or `JSONDecodeError`. -/
def response_json (r : HttpResponse) : Except PyException JsonBody :=
  match r.json with
  | some body => .ok body
  | none => .error (.JSONDecodeError "Expecting value")

/-- The body of `query_nfse`'s `with` block, applied to the outcome of
`client.get(url)` (a response, or a raised `httpx` transport exception):
a non-200 status raises `NFSeAPIError` built from
`response.json() if response.text else \x7b\x7d` and carrying the HTTP
status; a 200 response is parsed into an `NFSeQueryResult`, the required
keys `chaveAcesso`, `nNFSe` and `dhEmi` raising `KeyError` when absent. -/
def query_nfse_body (getResult : Except PyException HttpResponse) :
    Except PyException NFSeQueryResult := do
  let r ← getResult
  if r.status_code ≠ 200 then
    if r.text = "" then
      .error (.NFSeAPIError "Erro ao consultar NFSe" none
        (some r.status_code) none)
    else do
      let error_data ← response_json r
      .error (.NFSeAPIError
        (error_data.mensagem.getD "Erro ao consultar NFSe")
        error_data.codigo (some r.status_code) none)
  else do
    let data ← response_json r
    match data.chaveAcesso with
    | none => .error (.KeyError "chaveAcesso")
    | some chave =>
      match data.nNFSe with
      | none => .error (.KeyError "nNFSe")
      | some n =>
        match data.dhEmi with
        | none => .error (.KeyError "dhEmi")
        | some emi =>
          .ok { chave_acesso := chave, nfse_number := n,
                status := data.situacao.getD "emitida",
                data_emissao := emi,
                valor_servicos := data.vServPrest.getD 0,
                prestador_cnpj := data.CNPJPrest.getD "",
                tomador_documento := pyOr data.CPFToma data.CNPJToma }

/-- `NFSeClient._get_client` used as `with self._get_client() as client:`.
The `@contextmanager` generator runs `_load_pkcs12` and writes the
temporary PEM files *before* its `try` (a failure there propagates
unchanged — the `setup` parameter), and its `try` encloses the `yield`:
every exception the `with` body raises is thrown back at the yield, caught
by `except Exception as e`, and re-raised as
`NFSeCertificateError(f"Error configuring HTTP client: \x7bstr(e)\x7d")`
(`client.close()` is assumed to succeed; the `finally` cleanup performs no
visible transition). -/
def with_get_client {α : Type} (setup : Option PyException)
    (body : Except PyException α) : Except PyException α :=
  match setup with
  | some e => .error e
  | none =>
    match body with
    | .ok a => .ok a
    | .error e => .error (.NFSeCertificateError
        ("Error configuring HTTP client: " ++ pyStr e) none)

/-- `NFSeClient.query_nfse`: the `with _get_client()` block around the
request/parse body, inside `try/except` — `except NFSeAPIError: raise`,
`except httpx.TimeoutException` and `except httpx.RequestError` re-raise
as `NFSeAPIError`, anything else propagates. (Because the contextmanager
has already converted every body exception into `NFSeCertificateError`,
these handlers never fire for exceptions of the body.) -/
def query_nfse (setup : Option PyException)
    (getResult : Except PyException HttpResponse) :
    Except PyException NFSeQueryResult :=
  match with_get_client setup (query_nfse_body getResult) with
  | .ok v => .ok v
  | .error e =>
    match e with
    | .NFSeAPIError _ _ _ _ => .error e
    | .TimeoutException _ =>
        .error (.NFSeAPIError "Timeout ao consultar NFSe" (some "TIMEOUT")
          none none)
    | .RequestError m =>
        .error (.NFSeAPIError ("Erro de comunicacao: " ++ m)
          (some "COMM_ERROR") none none)
    | e => .error e

/-- A 404 response with an empty body. -/
def resp404 : HttpResponse :=
  { status_code := 404, text := "", json := none }

/-- A 500 response with an empty body. -/
def resp500 : HttpResponse :=
  { resp404 with status_code := 500 }

/-- C5 counterexample: on HTTP 404 the client surfaces no `NFSeAPIError` at
all, let alone a NotFound specialization — the `NFSeAPIError` raised inside
the `with` body is caught at the contextmanager's yield and re-raised as
`NFSeCertificateError` (a class carrying no `status_code` attribute), and
HTTP 500 produces the *identical* exception, so the 404 failure is not a
distinct error kind. -/
theorem query_404_same_exception :
    query_nfse none (.ok resp404) =
      .error (.NFSeCertificateError
        "Error configuring HTTP client: Erro ao consultar NFSe" none) ∧
    query_nfse none (.ok resp500) =
      .error (.NFSeCertificateError
        "Error configuring HTTP client: Erro ao consultar NFSe" none) ∧
    query_nfse none (.ok resp404) = query_nfse none (.ok resp500) :=
  ⟨rfl, rfl, rfl⟩

/-- C5 (amended): for every non-200 query response the `with` body raises
`NFSeAPIError` with the HTTP status (or `JSONDecodeError` for a non-empty
unparsable error body), but `_get_client`'s `except Exception` converts
either into `NFSeCertificateError` wrapping the message — the surfaced
exception is the same credential class for 404 as for every other non-200
status, without a `status_code` attribute; no NotFound specialization
exists. -/
theorem query_non200_cert_error (r : HttpResponse)
    (h : r.status_code ≠ 200) :
    query_nfse none (.ok r) =
      .error (.NFSeCertificateError ("Error configuring HTTP client: " ++
        (if r.text = "" then "Erro ao consultar NFSe"
         else match r.json with
           | none => "Expecting value"
           | some body => body.mensagem.getD "Erro ao consultar NFSe"))
        none) := by
  cases hj : r.json <;> by_cases ht : r.text = "" <;>
    simp [query_nfse, with_get_client, query_nfse_body, response_json,
      pyStr, Bind.bind, Except.bind, h, ht, hj]

/-- Witness for C5 (amended): the wrapped non-200 outcome evaluated at the
concrete 404 response. -/
theorem query_non200_cert_error_witness :
    query_nfse none (.ok resp404) =
      .error (.NFSeCertificateError ("Error configuring HTTP client: " ++
        (if resp404.text = "" then "Erro ao consultar NFSe"
         else match resp404.json with
           | none => "Expecting value"
           | some body => body.mensagem.getD "Erro ao consultar NFSe"))
        none) :=
  query_non200_cert_error resp404 (by decide)

/-- The outcomes of the I/O and library primitives `XMLSignerService.sign`
depends on: library availability, the PKCS12 load, the `infDPS` lookup and
its `Id` attribute, and the `signxml` signing call. -/
structure SignWorld where
  signxml_available : Bool
  cryptography_available : Bool
  file_found : Bool
  certificate_in_file : Bool
  infDPS_found : Bool
  infDPS_id : Option String
  signing_ok : Bool

/-- `XMLSignerService._load_certificate` (first load): every failure is an
`NFSeCertificateError`, with the message distinguishing the cause. -/
def load_certificate (w : SignWorld) : Except (PyExc × String) Unit :=
  if ¬ w.cryptography_available then
    .error (.NFSeCertificateError, "cryptography library not installed")
  else if ¬ w.file_found then
    .error (.NFSeCertificateError, "Arquivo de certificado nao encontrado")
  else if ¬ w.certificate_in_file then
    .error (.NFSeCertificateError, "Certificado nao encontrado no arquivo")
  else .ok ()

/-- `XMLSignerService.sign`, failure structure: missing library, failed
certificate load, missing `infDPS` target element, missing/empty `Id`
attribute, and failure of the underlying signing primitive (whose wrapped
message prefix is kept) — each raises `NFSeCertificateError`. -/
def sign_outcome (w : SignWorld) : Except (PyExc × String) Unit := do
  if ¬ w.signxml_available then
    .error (.NFSeCertificateError, "signxml library not installed")
  else do
    let _ ← load_certificate w
    if ¬ w.infDPS_found then
      .error (.NFSeCertificateError, "infDPS element not found in XML")
    else if ¬ truthy w.infDPS_id then
      .error (.NFSeCertificateError, "infDPS Id attribute not found")
    else if ¬ w.signing_ok then
      .error (.NFSeCertificateError, "Erro ao assinar XML")
    else .ok ()

/-- A signing attempt whose only problem is the absent target element. -/
def world_target_absent : SignWorld :=
  { signxml_available := true, cryptography_available := true,
    file_found := true, certificate_in_file := true, infDPS_found := false,
    infDPS_id := none, signing_ok := true }

/-- A signing attempt whose only problem is that no certificate could be
loaded from the PKCS12 container. -/
def world_cert_missing : SignWorld :=
  { signxml_available := true, cryptography_available := true,
    file_found := true, certificate_in_file := false, infDPS_found := true,
    infDPS_id := some "DPS1", signing_ok := true }

/-- A signing attempt whose only problem is the underlying cryptographic
primitive failing. -/
def world_crypto_failure : SignWorld :=
  { signxml_available := true, cryptography_available := true,
    file_found := true, certificate_in_file := true, infDPS_found := true,
    infDPS_id := some "DPS1", signing_ok := false }

/-- C6 counterexample: the target-element-not-found failure raises the same
exception class (`NFSeCertificateError`) as the credential failure and as
the cryptographic failure — the failure modes are *not* distinct error
kinds. -/
theorem sign_failure_modes_same_class :
    excClass (sign_outcome world_target_absent) =
      some PyExc.NFSeCertificateError ∧
    excClass (sign_outcome world_cert_missing) =
      some PyExc.NFSeCertificateError ∧
    excClass (sign_outcome world_crypto_failure) =
      some PyExc.NFSeCertificateError ∧
    excClass (sign_outcome world_target_absent) =
      excClass (sign_outcome world_cert_missing) := by decide

/-- C6 (amended): the three failure modes all raise the single class
`NFSeCertificateError` and are distinguished only by their messages, which
are pairwise distinct. -/
theorem sign_failure_modes_messages :
    sign_outcome world_target_absent =
      .error (.NFSeCertificateError, "infDPS element not found in XML") ∧
    sign_outcome world_cert_missing =
      .error (.NFSeCertificateError, "Certificado nao encontrado no arquivo") ∧
    sign_outcome world_crypto_failure =
      .error (.NFSeCertificateError, "Erro ao assinar XML") ∧
    ("infDPS element not found in XML" : String) ≠
      "Certificado nao encontrado no arquivo" ∧
    ("infDPS element not found in XML" : String) ≠ "Erro ao assinar XML" ∧
    ("Certificado nao encontrado no arquivo" : String) ≠
      "Erro ao assinar XML" := by
  refine ⟨rfl, rfl, rfl, by decide, by decide, by decide⟩

/- ## `utils.py`: transport codec — Base64 layer -/

/-- The standard Base64 alphabet. -/
def b64chars : List Char :=
  "ABCDEFGHIJKLMNOPQRSTUVWXYZabcdefghijklmnopqrstuvwxyz0123456789+/".data

/-- Alphabet character of a 6-bit group. -/
def b64chr (n : Nat) : Char := b64chars.getD n 'A'

/-- 6-bit group of an alphabet character. -/
def b64val (c : Char) : Option Nat := b64chars.findIdx? (fun x => x == c)

theorem b64val_b64chr : ∀ n, n < 64 → b64val (b64chr n) = some n := by decide

theorem b64chr_ne_pad : ∀ n, n < 64 → b64chr n ≠ '=' := by decide

/-- `base64.b64encode`: bytes to Base64 text, three bytes to four
characters, `=`-padded final group. -/
def b64encode : List Nat → List Char
  | [] => []
  | [a] => [b64chr (a / 4), b64chr (a % 4 * 16), '=', '=']
  | [a, b] => [b64chr (a / 4), b64chr (a % 4 * 16 + b / 16),
      b64chr (b % 16 * 4), '=']
  | a :: b :: c :: rest =>
      b64chr (a / 4) :: b64chr (a % 4 * 16 + b / 16) ::
        b64chr (b % 16 * 4 + c / 64) :: b64chr (c % 64) :: b64encode rest

/-- `base64.b64decode` on well-formed input: four characters to three
bytes, with the `=`-padded final group yielding one or two bytes; anything
else fails. -/
def b64decode : List Char → Option (List Nat)
  | [] => some []
  | c1 :: c2 :: c3 :: c4 :: rest =>
      match b64val c1, b64val c2 with
      | some n1, some n2 =>
        if c3 = '=' ∧ c4 = '=' ∧ rest = [] then
          some [n1 * 4 + n2 / 16]
        else if c4 = '=' ∧ rest = [] then
          match b64val c3 with
          | some n3 => some [n1 * 4 + n2 / 16, n2 % 16 * 16 + n3 / 4]
          | none => none
        else
          match b64val c3, b64val c4 with
          | some n3, some n4 =>
            (b64decode rest).map
              (fun tail => (n1 * 4 + n2 / 16) :: (n2 % 16 * 16 + n3 / 4) ::
                (n3 % 4 * 64 + n4) :: tail)
          | _, _ => none
      | _, _ => none
  | _ => none

/-- Base64 round-trip on byte lists. -/
theorem b64decode_b64encode (l : List Nat) (h : ∀ x ∈ l, x < 256) :
    b64decode (b64encode l) = some l := by
  induction l using b64encode.induct with
  | case1 => rfl
  | case2 a =>
    have ha : a < 256 := h a (by simp)
    have e1 := b64val_b64chr (a / 4) (by omega)
    have e2 := b64val_b64chr (a % 4 * 16) (by omega)
    simp only [b64encode, b64decode, e1, e2]
    rw [if_pos (by simp)]
    have : a / 4 * 4 + a % 4 * 16 / 16 = a := by omega
    rw [this]
  | case3 a b =>
    have ha : a < 256 := h a (by simp)
    have hb : b < 256 := h b (by simp)
    have e1 := b64val_b64chr (a / 4) (by omega)
    have e2 := b64val_b64chr (a % 4 * 16 + b / 16) (by omega)
    have e3 := b64val_b64chr (b % 16 * 4) (by omega)
    have ne3 := b64chr_ne_pad (b % 16 * 4) (by omega)
    simp only [b64encode, b64decode, e1, e2, e3]
    rw [if_neg (fun hcd => ne3 hcd.1), if_pos (by simp)]
    have h1 : a / 4 * 4 + (a % 4 * 16 + b / 16) / 16 = a := by omega
    have h2 : (a % 4 * 16 + b / 16) % 16 * 16 + b % 16 * 4 / 4 = b := by
      omega
    rw [h1, h2]
  | case4 a b c rest ih =>
    have ha : a < 256 := h a (by simp)
    have hb : b < 256 := h b (by simp)
    have hc : c < 256 := h c (by simp)
    have e1 := b64val_b64chr (a / 4) (by omega)
    have e2 := b64val_b64chr (a % 4 * 16 + b / 16) (by omega)
    have e3 := b64val_b64chr (b % 16 * 4 + c / 64) (by omega)
    have e4 := b64val_b64chr (c % 64) (by omega)
    have ne3 := b64chr_ne_pad (b % 16 * 4 + c / 64) (by omega)
    have ne4 := b64chr_ne_pad (c % 64) (by omega)
    simp only [b64encode, b64decode, e1, e2, e3, e4]
    rw [if_neg (fun hcond => ne3 hcond.1), if_neg (fun hcond => ne4 hcond.1),
      ih (fun x hx => h x (by simp [hx]))]
    have h1 : a / 4 * 4 + (a % 4 * 16 + b / 16) / 16 = a := by omega
    have h2 : (a % 4 * 16 + b / 16) % 16 * 16 + (b % 16 * 4 + c / 64) / 4
        = b := by omega
    have h3 : (b % 16 * 4 + c / 64) % 4 * 64 + c % 64 = c := by omega
    rw [h1, h2, h3]
    rfl

/- ## `utils.py`: transport codec — UTF-8 layer -/

/-- UTF-8 encoding of one Unicode scalar value (`str.encode("utf-8")`,
per character). -/
def encodeChar (c : Char) : List Nat :=
  let n := c.toNat
  if n < 128 then [n]
  else if n < 2048 then [192 + n / 64, 128 + n % 64]
  else if n < 65536 then
    [224 + n / 4096, 128 + n / 64 % 64, 128 + n % 64]
  else
    [240 + n / 262144, 128 + n / 4096 % 64, 128 + n / 64 % 64, 128 + n % 64]

/-- `str.encode("utf-8")` over a character list. -/
def utf8Encode : List Char → List Nat
  | [] => []
  | c :: cs => encodeChar c ++ utf8Encode cs

mutual

/-- Strict UTF-8 decoding (`bytes.decode("utf-8")`), rejecting truncated
sequences, bad continuation bytes, overlong forms, surrogates and
out-of-range lead bytes. The lead byte dispatches on its range; the helper
per sequence length consumes the continuation bytes. -/
def utf8DecodeList : List Nat → Option (List Char)
  | [] => some []
  | b :: bs =>
    if b < 128 then (utf8DecodeList bs).map (fun cs => Char.ofNat b :: cs)
    else if b < 194 then none
    else if b < 224 then utf8Dec2 b bs
    else if b < 240 then utf8Dec3 b bs
    else if b < 245 then utf8Dec4 b bs
    else none

/-- Continuation of a two-byte sequence. -/
def utf8Dec2 (b : Nat) : List Nat → Option (List Char)
  | b1 :: bs =>
    if 128 ≤ b1 ∧ b1 < 192 then
      (utf8DecodeList bs).map
        (fun cs => Char.ofNat ((b - 192) * 64 + (b1 - 128)) :: cs)
    else none
  | [] => none

/-- Continuation of a three-byte sequence (overlong and surrogate forms
rejected). -/
def utf8Dec3 (b : Nat) : List Nat → Option (List Char)
  | b1 :: b2 :: bs =>
    if (128 ≤ b1 ∧ b1 < 192) ∧ (128 ≤ b2 ∧ b2 < 192) ∧
        (b ≠ 224 ∨ 160 ≤ b1) ∧ (b ≠ 237 ∨ b1 < 160) then
      (utf8DecodeList bs).map
        (fun cs => Char.ofNat ((b - 224) * 4096 + (b1 - 128) * 64 +
          (b2 - 128)) :: cs)
    else none
  | _ => none

/-- Continuation of a four-byte sequence (overlong and out-of-range forms
rejected). -/
def utf8Dec4 (b : Nat) : List Nat → Option (List Char)
  | b1 :: b2 :: b3 :: bs =>
    if (128 ≤ b1 ∧ b1 < 192) ∧ (128 ≤ b2 ∧ b2 < 192) ∧
        (128 ≤ b3 ∧ b3 < 192) ∧
        (b ≠ 240 ∨ 144 ≤ b1) ∧ (b ≠ 244 ∨ b1 < 144) then
      (utf8DecodeList bs).map
        (fun cs => Char.ofNat ((b - 240) * 262144 + (b1 - 128) * 4096 +
          (b2 - 128) * 64 + (b3 - 128)) :: cs)
    else none
  | _ => none

end

/-- `Char.ofNat` inverts `Char.toNat`. -/
theorem char_ofNat_toNat (c : Char) : Char.ofNat c.toNat = c := by
  have h : Nat.isValidChar c.toNat := c.valid
  unfold Char.ofNat
  rw [dif_pos h]
  apply Char.ext
  apply UInt32.eq_of_toBitVec_eq
  apply BitVec.eq_of_toNat_eq
  simp [Char.ofNatAux, Char.toNat, UInt32.toNat]

/-- A scalar value is below the surrogate range or above it. -/
theorem char_valid_cases (c : Char) :
    c.toNat < 55296 ∨ (57343 < c.toNat ∧ c.toNat < 1114112) := c.valid

/-- Decoding the UTF-8 bytes of one character, followed by anything,
consumes exactly that character. -/
theorem utf8DecodeList_encodeChar (c : Char) (rest : List Nat) :
    utf8DecodeList (encodeChar c ++ rest) =
      (utf8DecodeList rest).map (fun cs => c :: cs) := by
  have hv := char_valid_cases c
  by_cases h1 : c.toNat < 128
  · have he : encodeChar c = [c.toNat] := by simp [encodeChar, h1]
    rw [he]
    show utf8DecodeList (c.toNat :: rest) = _
    simp only [utf8DecodeList]
    rw [if_pos h1, char_ofNat_toNat]
  · by_cases h2 : c.toNat < 2048
    · have he : encodeChar c =
          [192 + c.toNat / 64, 128 + c.toNat % 64] := by
        simp [encodeChar, h1, h2]
      rw [he]
      show utf8DecodeList (_ :: _ :: rest) = _
      simp only [utf8DecodeList]
      rw [if_neg (by omega), if_neg (by omega), if_pos (by omega)]
      simp only [utf8Dec2]
      rw [if_pos (by omega)]
      have harg : (192 + c.toNat / 64 - 192) * 64 +
          (128 + c.toNat % 64 - 128) = c.toNat := by omega
      rw [harg, char_ofNat_toNat]
    · by_cases h3 : c.toNat < 65536
      · have he : encodeChar c =
            [224 + c.toNat / 4096, 128 + c.toNat / 64 % 64,
              128 + c.toNat % 64] := by
          simp [encodeChar, h1, h2, h3]
        rw [he]
        show utf8DecodeList (_ :: _ :: _ :: rest) = _
        simp only [utf8DecodeList]
        rw [if_neg (by omega), if_neg (by omega), if_neg (by omega),
          if_pos (by omega)]
        simp only [utf8Dec3]
        rw [if_pos (by omega)]
        have harg : (224 + c.toNat / 4096 - 224) * 4096 +
            (128 + c.toNat / 64 % 64 - 128) * 64 +
            (128 + c.toNat % 64 - 128) = c.toNat := by omega
        rw [harg, char_ofNat_toNat]
      · have h4 : c.toNat < 1114112 := by omega
        have he : encodeChar c =
            [240 + c.toNat / 262144, 128 + c.toNat / 4096 % 64,
              128 + c.toNat / 64 % 64, 128 + c.toNat % 64] := by
          simp [encodeChar, h1, h2, h3]
        rw [he]
        show utf8DecodeList (_ :: _ :: _ :: _ :: rest) = _
        simp only [utf8DecodeList]
        rw [if_neg (by omega), if_neg (by omega), if_neg (by omega),
          if_neg (by omega), if_pos (by omega)]
        simp only [utf8Dec4]
        rw [if_pos (by omega)]
        have harg : (240 + c.toNat / 262144 - 240) * 262144 +
            (128 + c.toNat / 4096 % 64 - 128) * 4096 +
            (128 + c.toNat / 64 % 64 - 128) * 64 +
            (128 + c.toNat % 64 - 128) = c.toNat := by omega
        rw [harg, char_ofNat_toNat]

/-- UTF-8 round-trip on character lists. -/
theorem utf8DecodeList_utf8Encode (cs : List Char) :
    utf8DecodeList (utf8Encode cs) = some cs := by
  induction cs with
  | nil => rfl
  | cons c cs ih =>
    simp only [utf8Encode]
    rw [utf8DecodeList_encodeChar, ih]
    rfl

/-- UTF-8 code units are bytes. -/
theorem encodeChar_lt_256 (c : Char) : ∀ x ∈ encodeChar c, x < 256 := by
  have hv := char_valid_cases c
  intro x hx
  by_cases h1 : c.toNat < 128 <;> by_cases h2 : c.toNat < 2048 <;>
    by_cases h3 : c.toNat < 65536 <;>
    simp [encodeChar, h1, h2, h3] at hx <;> omega

/-- All bytes of a UTF-8 encoding are below 256. -/
theorem utf8Encode_lt_256 (cs : List Char) : ∀ x ∈ utf8Encode cs, x < 256 := by
  induction cs with
  | nil => intro x hx; simp [utf8Encode] at hx
  | cons c cs ih =>
    intro x hx
    simp only [utf8Encode, List.mem_append] at hx
    rcases hx with hx | hx
    · exact encodeChar_lt_256 c x hx
    · exact ih x hx

/- ## `utils.py`: transport codec — composition -/

/-- `utils.compress_encode`: UTF-8 encode, gzip-compress, Base64-encode.
The gzip layer is the `gzip.compress` library primitive, taken as a
parameter. -/
def compress_encode (gzip_compress : List Nat → List Nat)
    (data : String) : List Char :=
  b64encode (gzip_compress (utf8Encode data.data))

/-- `utils.decode_decompress`: Base64-decode, gzip-decompress, UTF-8
decode. The gzip layer is the `gzip.decompress` library primitive, taken
as a parameter; malformed input fails (`none`). -/
def decode_decompress (gzip_decompress : List Nat → List Nat)
    (data : List Char) : Option String :=
  match b64decode data with
  | none => none
  | some decoded =>
    (utf8DecodeList (gzip_decompress decoded)).map List.asString

/-- A string is its own character data. -/
theorem asString_data (s : String) : s.data.asString = s := by
  cases s
  rfl

/-- C3: for every string (hence every valid UTF-8 text, multi-byte
characters and the empty string included), decoding the encoded transport
token restores the string — given the gzip library contract that
decompression inverts compression and compression produces bytes. -/
theorem decode_decompress_compress_encode
    (gzip_compress gzip_decompress : List Nat → List Nat)
    (hinv : ∀ bs, gzip_decompress (gzip_compress bs) = bs)
    (hbytes : ∀ bs, (∀ x ∈ bs, x < 256) → ∀ x ∈ gzip_compress bs, x < 256)
    (s : String) :
    decode_decompress gzip_decompress (compress_encode gzip_compress s) =
      some s := by
  unfold compress_encode decode_decompress
  rw [b64decode_b64encode _ (hbytes _ (utf8Encode_lt_256 _))]
  show (utf8DecodeList
      (gzip_decompress (gzip_compress (utf8Encode s.data)))).map
      List.asString = some s
  rw [hinv, utf8DecodeList_utf8Encode]
  simp [asString_data]

/-- Witness for C3: the round trip evaluated with the identity
compressor (which satisfies both gzip contract hypotheses) on a concrete
string exercising one-, two-, three- and four-byte UTF-8 sequences. -/
theorem decode_decompress_compress_encode_witness :
    decode_decompress id (compress_encode id "nfse Olá ção 中 𝄞") =
      some "nfse Olá ção 中 𝄞" :=
  decode_decompress_compress_encode id id (fun _ => rfl)
    (fun _ h => h) "nfse Olá ção 中 𝄞"
